import Mathlib

/-
Verification development for the mini-data-proxy repository.

The Python sources under src/ are shallowly embedded below:
  - src/src/did_document.py   : validate_inputs, create_did_document
  - src/src/database.py       : store_data, consume_data
  - src/src/encryption.py     : encrypt_data, create_kfrags, reencrypt_data,
                                decrypt_reencrypted_data
  - src/src/config.py         : PRE_THRESHOLD, PRE_SHARES, DID_CONTEXT_URL, DID_METHOD
  - src/main.py               : demo_store (the demo sub-command store invocation)

The umbral cryptographic primitives (SecretKey, PublicKey, Capsule, kfrags,
encrypt, generate_kfrags, reencrypt, decrypt_reencrypted and their byte
serialization) are an external library, out of scope of the repository.
They are modelled symbolically from the spec, section 6 (Primitives Provider
interface); each such definition carries a doc comment saying so.

Conventions of the embedding:
  - Python bytes are List Nat; Python str is String.
  - Python exceptions are an explicit error type PyErr; fallible code returns
    Except PyErr.
  - The wall clock (datetime.now in create_did_document) is injected as a
    Nat parameter called now.
  - The in-memory database dict maps the key collection to a dict from asset
    id to a one-field wrapper dict around the DID document; the wrapper and
    the outer dict are elided, so Database is an association list from asset
    id to DidDocument.  store_data only writes through this mapping and
    consume_data only reads it, exactly as in the source.
  - Executed cryptographic or codec operations are additionally logged in a
    List CryptoOp, so that claims about operations not being performed are
    statable.
-/

/-- Decidable equality for Except results, so that concrete runs of the
embedded code can be checked by decide. -/
instance instDecEqExcept {ε α : Type} [DecidableEq ε] [DecidableEq α] :
    DecidableEq (Except ε α)
  | .error a, .error b =>
    if h : a = b then isTrue (by rw [h])
    else isFalse (fun hh => h (Except.error.inj hh))
  | .error _, .ok _ => isFalse (fun hh => Except.noConfusion hh)
  | .ok _, .error _ => isFalse (fun hh => Except.noConfusion hh)
  | .ok a, .ok b =>
    if h : a = b then isTrue (by rw [h])
    else isFalse (fun hh => h (Except.ok.inj hh))

namespace MiniDataProxy

/-- Python bytes values: a list of byte values. -/
abbrev Bytes := List Nat

/-- Python exception classes raised by builtins or the umbral library that
the repository code interacts with. -/
inductive PyExc where
  | valueError (msg : String)
  | typeError (msg : String)
  | indexError (msg : String)
deriving DecidableEq, Repr

/-- All exceptions observable from the embedded repository code.
dataStorageError, decryptionError (src/src/database.py) and invalidKeyFrag
(src/src/did_document.py) are the repository-defined exception classes;
permissionError is the Python builtin PermissionError; exc embeds an
uncaught primitive exception.  The cause arguments record exception
chaining (raise ... from err). -/
inductive PyErr where
  | exc (e : PyExc)
  | invalidKeyFrag (msg : String)
  | dataStorageError (msg : String) (cause : Option PyExc)
  | decryptionError (msg : String) (cause : PyExc)
  | permissionError (msg : String)
deriving DecidableEq, Repr

/-- Cryptographic and codec operations, logged when the embedded code
performs them. -/
inductive CryptoOp where
  | encrypt
  | kfragGen
  | fromhex
  | parseCapsule
  | parseKfrag
  | reencrypt
  | decrypt
deriving DecidableEq, Repr

/-- Modelled from the spec: an umbral secret key, identified symbolically. -/
structure SecretKey where
  id : Nat
deriving DecidableEq, Repr

/-- Modelled from the spec: an umbral public key; the public key derived
from the secret key with the same id. -/
structure PublicKey where
  id : Nat
deriving DecidableEq, Repr

/-- Modelled from the spec: SecretKey.public_key() of the umbral library. -/
def SecretKey.public_key (sk : SecretKey) : PublicKey := ⟨sk.id⟩

/-- Modelled from the spec: an umbral Signer built from a secret key. -/
structure Signer where
  id : Nat
deriving DecidableEq, Repr

/-- Modelled from the spec: an umbral Capsule.  It records the delegating
public key it was produced under and binds to the exact plaintext of the
ciphertext it was produced alongside. -/
structure Capsule where
  delegator : Nat
  payload : Bytes
deriving DecidableEq, Repr

/-- Modelled from the spec: an umbral VerifiedKeyFrag, cryptographically
bound to the delegating secret key and the receiving public key, carrying
its threshold policy and share index. -/
structure VerifiedKeyFrag where
  delegator : Nat
  receiver : Nat
  threshold : Nat
  index : Nat
deriving DecidableEq, Repr

/-- Modelled from the spec: an umbral VerifiedCapsuleFrag, the result of
re-encrypting a capsule with one verified key fragment. -/
structure VerifiedCapsuleFrag where
  capsule : Capsule
  kfrag : VerifiedKeyFrag
deriving DecidableEq, Repr

/-! ## Byte serialization of the symbolic umbral objects

Modelled from the spec: the provider offers byte (de)serialization for
Capsule, VerifiedKeyFrag and PublicKey, all hex-encodable.  A Nat is
serialized in unary (n ones then a zero), which is self-delimiting; an
object is a type tag, a field count, then the fields. -/

/-- Self-delimiting byte encoding of a Nat: n ones followed by a zero. -/
def encNat : Nat → Bytes
  | 0 => [0]
  | n + 1 => 1 :: encNat n

/-- Decoder for encNat; returns the value and the remaining bytes. -/
def decNat : Bytes → Option (Nat × Bytes)
  | [] => none
  | 0 :: r => some (0, r)
  | 1 :: r =>
    match decNat r with
    | some (n, rest) => some (n + 1, rest)
    | none => none
  | _ :: _ => none

/-- Decode exactly k consecutive encNat values. -/
def decNats : Nat → Bytes → Option (List Nat × Bytes)
  | 0, b => some ([], b)
  | k + 1, b =>
    match decNat b with
    | some (n, r) =>
      match decNats k r with
      | some (ns, rest) => some (n :: ns, rest)
      | none => none
    | none => none

/-- Serialize a tagged record: type tag, field count, fields. -/
def serialize (tag : Nat) (fields : List Nat) : Bytes :=
  encNat tag ++ encNat fields.length ++ fields.flatMap encNat

/-- Parse a tagged record serialized by serialize, requiring that the whole
input is consumed. -/
def parseSer (b : Bytes) : Option (Nat × List Nat) :=
  match decNat b with
  | none => none
  | some (tag, r1) =>
    match decNat r1 with
    | none => none
    | some (len, r2) =>
      match decNats len r2 with
      | none => none
      | some (fields, rest) => if rest = [] then some (tag, fields) else none

/-- Modelled from the spec: bytes(public_key) in umbral. -/
def PublicKey.toBytes (k : PublicKey) : Bytes := serialize 0 [k.id]

/-- Modelled from the spec: bytes(capsule) in umbral. -/
def Capsule.toBytes (c : Capsule) : Bytes := serialize 1 (c.delegator :: c.payload)

/-- Modelled from the spec: Capsule.from_bytes in umbral; fails (umbral
raises ValueError) on bytes that are not a serialized capsule. -/
def Capsule.from_bytes (b : Bytes) : Option Capsule :=
  match parseSer b with
  | some (1, d :: payload) => some ⟨d, payload⟩
  | _ => none

/-- Modelled from the spec: bytes(kfrag) in umbral. -/
def VerifiedKeyFrag.toBytes (k : VerifiedKeyFrag) : Bytes :=
  serialize 2 [k.delegator, k.receiver, k.threshold, k.index]

/-- Modelled from the spec: VerifiedKeyFrag.from_verified_bytes in umbral;
trusts its input to be a verified fragment but fails (umbral raises
ValueError) on bytes that are not a serialized fragment. -/
def VerifiedKeyFrag.from_verified_bytes (b : Bytes) : Option VerifiedKeyFrag :=
  match parseSer b with
  | some (2, [d, r, t, i]) => some ⟨d, r, t, i⟩
  | _ => none

/-! ## Hex encoding (Python bytes.hex and bytes.fromhex)

bytes.fromhex also skips ASCII spaces between byte pairs; no hex string in
this development contains a space, so that case is not modelled. -/

/-- Lowercase hex digit character code for a nibble, as produced by the
Python bytes.hex method. -/
def hexChar (n : Nat) : Nat := if n < 10 then 48 + n else 87 + n

/-- Python bytes.hex: two lowercase hex characters per byte. -/
def bytesToHex (bs : Bytes) : List Nat :=
  bs.flatMap (fun b => [hexChar (b / 16), hexChar (b % 16)])

/-- Value of one hex character (0-9, a-f, A-F), as accepted by
Python bytes.fromhex. -/
def hexCharVal (c : Nat) : Option Nat :=
  if 48 ≤ c ∧ c ≤ 57 then some (c - 48)
  else if 97 ≤ c ∧ c ≤ 102 then some (c - 87)
  else if 65 ≤ c ∧ c ≤ 70 then some (c - 55)
  else none

/-- Python bytes.fromhex: fails (raises ValueError) on odd length or on a
non-hex character. -/
def hexToBytes : List Nat → Option Bytes
  | [] => some []
  | [_] => none
  | c1 :: c2 :: rest =>
    match hexCharVal c1, hexCharVal c2, hexToBytes rest with
    | some h, some l, some bs => some ((16 * h + l) :: bs)
    | _, _, _ => none

/-! ## Configuration (src/src/config.py)

The environment override (os.getenv) is not modelled; these are the
hardcoded defaults. -/

/-- From src/src/config.py: default minimum kfrags for decryption. -/
def PRE_THRESHOLD : Nat := 2

/-- From src/src/config.py: default total kfrags to generate. -/
def PRE_SHARES : Nat := 3

/-- From src/src/config.py: DID document context URL. -/
def DID_CONTEXT_URL : String := "https://w3id.org/did/v1"

/-- From src/src/config.py: DID method name. -/
def DID_METHOD : String := "op"

/-! ## Dynamic Python values for the builder validation

src/src/did_document.py validates dynamically typed arguments with
truthiness and isinstance checks; PyVal captures the values those checks
can distinguish. -/

/-- A dynamically typed Python value, as far as the validation in
src/src/did_document.py can observe it. -/
inductive PyVal where
  | str (s : String)
  | bytes (b : Bytes)
  | pk (k : PublicKey)
  | capsule (c : Capsule)
  | vkfrag (k : VerifiedKeyFrag)
  | pyNone
  | int (n : Int)
deriving DecidableEq, Repr

/-- Python truthiness of a PyVal: empty strings and bytes, None and zero
are falsy; umbral objects define no custom bool and are always truthy. -/
def PyVal.truthy : PyVal → Bool
  | .str s => !(s == "")
  | .bytes b => !b.isEmpty
  | .pk _ => true
  | .capsule _ => true
  | .vkfrag _ => true
  | .pyNone => false
  | .int n => !(n == 0)

/-- isinstance(v, PublicKey). -/
def PyVal.isPk : PyVal → Bool
  | .pk _ => true
  | _ => false

/-- isinstance(v, bytes). -/
def PyVal.isBytesVal : PyVal → Bool
  | .bytes _ => true
  | _ => false

/-- isinstance(v, Capsule). -/
def PyVal.isCapsuleVal : PyVal → Bool
  | .capsule _ => true
  | _ => false

/-- isinstance(v, VerifiedKeyFrag). -/
def PyVal.isVkfrag : PyVal → Bool
  | .vkfrag _ => true
  | _ => false

/-! ## Access Record Builder (src/src/did_document.py) -/

/-- From src/src/did_document.py, _validate_inputs (lines 84-102): the
sequential validation chain, first failure wins.  The quoted error
messages are those of the source with surrounding quotes preserved
verbatim. -/
def validate_inputs (data_asset_id access_url owner_public_key ciphertext capsule : PyVal)
    (kfrags : List PyVal) : Except PyErr Unit :=
  if !data_asset_id.truthy then
    .error (.exc (.valueError "Data asset ID is missing."))
  else if !access_url.truthy then
    .error (.exc (.valueError "Access URL is missing."))
  else if !owner_public_key.isPk then
    .error (.exc (.valueError "Invalid owner public key."))
  else if !ciphertext.isBytesVal || !ciphertext.truthy then
    .error (.exc (.valueError "Invalid ciphertext."))
  else if !capsule.isCapsuleVal then
    .error (.exc (.valueError "Invalid capsule."))
  else if kfrags.isEmpty || !(kfrags.all PyVal.isVkfrag) then
    .error (.invalidKeyFrag "Invalid key fragments.")
  else
    .ok ()

/-- One access entry of a DID document (the single element of the access
list built in src/src/did_document.py).  data, capsule and kfrags hold hex
character strings (lists of character codes). -/
structure AccessEntry where
  type : String
  accessUrl : String
  data : List Nat
  capsule : List Nat
  kfrags : List (List Nat)
deriving DecidableEq, Repr

/-- The DID document dict built by create_did_document. -/
structure DidDocument where
  context : String
  id : String
  created : Nat
  access : List AccessEntry
  encryptionType : String
  encryptionPublicKey : List Nat
deriving DecidableEq, Repr

/-- From src/src/did_document.py, create_did_document (lines 14-81), at the
types store_data actually passes.  Validation is delegated to
validate_inputs on the wrapped dynamic values; ValueError and
InvalidKeyFrag are re-raised unchanged (lines 76-77).  The document
construction itself is pure and cannot raise, so the fallback wrapping of
unexpected exceptions (lines 78-81) has no counterpart here.  The wall
clock is the injected parameter now. -/
def create_did_document (now : Nat) (data_asset_id access_url : String)
    (owner_public_key : PublicKey) (ciphertext : Bytes) (capsule : Capsule)
    (kfrags : List VerifiedKeyFrag) : Except PyErr DidDocument :=
  match validate_inputs (.str data_asset_id) (.str access_url) (.pk owner_public_key)
      (.bytes ciphertext) (.capsule capsule) (kfrags.map PyVal.vkfrag) with
  | .error e => .error e
  | .ok _ =>
    .ok { context := DID_CONTEXT_URL
          id := "did:" ++ DID_METHOD ++ ":" ++ data_asset_id
          created := now
          access := [{ type := "rest"
                       accessUrl := access_url
                       data := bytesToHex ciphertext
                       capsule := bytesToHex capsule.toBytes
                       kfrags := kfrags.map (fun k => bytesToHex k.toBytes) }]
          encryptionType := "PyUmbral"
          encryptionPublicKey := bytesToHex owner_public_key.toBytes }

/-! ## Cryptographic primitives (src/src/encryption.py over the modelled
umbral library) -/

/-- Modelled from the spec: umbral encrypt.  The ciphertext is a tagged
reversible encoding of the plaintext under the public key (never empty);
the capsule records the same key and binds to the exact plaintext. -/
def umbralEncrypt (public_key : PublicKey) (data : Bytes) : Capsule × Bytes :=
  (⟨public_key.id, data⟩, serialize 3 (public_key.id :: data))

/-- Inverse of the ciphertext encoding of umbralEncrypt. -/
def decPayload (b : Bytes) : Option (Nat × Bytes) :=
  match parseSer b with
  | some (3, pkid :: data) => some (pkid, data)
  | _ => none

/-- From src/src/encryption.py, encrypt_data: returns (ciphertext, capsule),
swapping the order of the umbral encrypt result. -/
def encrypt_data (data : Bytes) (public_key : PublicKey) : Bytes × Capsule :=
  let r := umbralEncrypt public_key data
  (r.2, r.1)

/-- Modelled from the spec: umbral generate_kfrags returns shares verified
fragments at the given threshold, bound to the delegating secret key and
the receiving public key, and fails (ParameterError, a ValueError) unless
1 <= threshold <= shares.  The signer argument only signs; the model does
not record signatures, so it is unused here. -/
def generate_kfrags (delegating_sk : SecretKey) (receiving_pk : PublicKey)
    (signer : Signer) (threshold shares : Nat) : Except PyErr (List VerifiedKeyFrag) :=
  if 1 ≤ threshold ∧ threshold ≤ shares then
    .ok ((List.range shares).map (fun i => ⟨delegating_sk.id, receiving_pk.id, threshold, i⟩))
  else
    .error (.exc (.valueError "kfrag parameters out of range"))

/-- From src/src/encryption.py, create_kfrags: re-derives the signer from
the delegating secret key (line 44) and calls generate_kfrags. -/
def create_kfrags (delegating_sk : SecretKey) (receiving_pk : PublicKey)
    (signer : Signer) (threshold shares : Nat) : Except PyErr (List VerifiedKeyFrag) :=
  generate_kfrags delegating_sk receiving_pk (Signer.mk delegating_sk.id) threshold shares

/-- Modelled from the spec: umbral reencrypt, total on a capsule and a
verified fragment. -/
def umbralReencrypt (capsule : Capsule) (verified_kfrag : VerifiedKeyFrag) :
    VerifiedCapsuleFrag :=
  ⟨capsule, verified_kfrag⟩

/-- From src/src/encryption.py, reencrypt_data. -/
def reencrypt_data (capsule : Capsule) (verified_kfrag : VerifiedKeyFrag) :
    VerifiedCapsuleFrag :=
  umbralReencrypt capsule verified_kfrag

/-- Modelled from the spec: umbral decrypt_reencrypted.  Succeeds exactly
when the ciphertext decodes under the delegating key, the capsule was
produced under that key alongside that exact ciphertext, and the supplied
capsule fragments are nonempty re-encryptions of that capsule under
fragments delegated from the delegating key to the receiving key, at least
as many as the fragments own threshold; otherwise raises a ValueError. -/
def decrypt_reencrypted (receiving_sk : SecretKey) (delegating_pk : PublicKey)
    (capsule : Capsule) (verified_cfrags : List VerifiedCapsuleFrag)
    (ciphertext : Bytes) : Except PyErr Bytes :=
  match decPayload ciphertext with
  | none => .error (.exc (.valueError "decryption failed"))
  | some (pkid, data) =>
    if pkid = delegating_pk.id ∧ capsule.delegator = delegating_pk.id ∧
        capsule.payload = data ∧ verified_cfrags ≠ [] ∧
        (∀ c ∈ verified_cfrags,
          c.capsule = capsule ∧ c.kfrag.delegator = delegating_pk.id ∧
          c.kfrag.receiver = receiving_sk.id ∧
          c.kfrag.threshold ≤ verified_cfrags.length) then
      .ok data
    else
      .error (.exc (.valueError "decryption failed"))

/-- From src/src/encryption.py, decrypt_reencrypted_data. -/
def decrypt_reencrypted_data (receiving_sk : SecretKey) (delegating_pk : PublicKey)
    (capsule : Capsule) (verified_cfrags : List VerifiedCapsuleFrag)
    (ciphertext : Bytes) : Except PyErr Bytes :=
  decrypt_reencrypted receiving_sk delegating_pk capsule verified_cfrags ciphertext

/-! ## Asset store (the in-memory database dict) -/

/-- The collection mapping of the in-memory database: asset id to DID
document, as an association list with dict semantics (overwrite in place,
append if new). -/
abbrev Database := List (String × DidDocument)

/-- Dict lookup on the collection. -/
def lookupA : Database → String → Option DidDocument
  | [], _ => none
  | (k, v) :: rest, key => if k = key then some v else lookupA rest key

/-- Dict assignment on the collection: overwrite the existing entry for the
key, or append a new one. -/
def insertA : Database → String → DidDocument → Database
  | [], key, v => [(key, v)]
  | (k, w) :: rest, key, v =>
    if k = key then (key, v) :: rest else (k, w) :: insertA rest key v

/-! ## Sharing Orchestrator (src/src/database.py, store_data) -/

/-- From src/src/database.py, store_data lines 54-64: the try block body.
Encryption, then kfrag generation with the hardcoded policy threshold=1,
shares=1 (lines 57-60), then the Access Record Builder. -/
def store_pipeline (asset_id : String) (data : Bytes) (access_url : String)
    (okey : SecretKey) (osig : Signer) (ckey : PublicKey) (now : Nat) :
    List CryptoOp × Except PyErr DidDocument :=
  let owner_pk := okey.public_key
  let ec := encrypt_data data owner_pk
  match create_kfrags okey ckey osig 1 1 with
  | .error e => ([.encrypt, .kfragGen], .error e)
  | .ok kfrags =>
    ([.encrypt, .kfragGen],
     create_did_document now asset_id access_url owner_pk ec.1 ec.2 kfrags)

/-- From src/src/database.py, store_data lines 65-71: the except clause and
the insertion.  Only ValueError is caught and wrapped into
DataStorageError (with the original exception chained); any other
exception propagates unchanged, and the database is mutated only on
success. -/
def store_finish (db : Database) (asset_id : String)
    (r : Except PyErr DidDocument) : Database × Except PyErr Unit :=
  match r with
  | .ok doc => (insertA db asset_id doc, .ok ())
  | .error (.exc (.valueError m)) =>
    (db, .error (.dataStorageError ("Failed to store data: " ++ m)
                  (some (.valueError m))))
  | .error e => (db, .error e)

/-- From src/src/database.py, store_data (lines 24-72).  The arguments that
Python allows to be None are Options; the guard is the truthiness check
not all([asset_id, data, access_url, owner_key, owner_signer,
consumer_key]) of lines 48-52.  Returns the logged operations, the
resulting database and the outcome. -/
def store_data (db : Database) (asset_id : String) (data : Bytes)
    (access_url : String) (owner_key : Option SecretKey)
    (owner_signer : Option Signer) (consumer_key : Option PublicKey)
    (now : Nat) : List CryptoOp × Database × Except PyErr Unit :=
  match owner_key, owner_signer, consumer_key with
  | some okey, some osig, some ckey =>
    if asset_id = "" ∨ data = [] ∨ access_url = "" then
      ([], db, .error (.exc (.valueError "All parameters are required")))
    else
      let pr := store_pipeline asset_id data access_url okey osig ckey now
      let fin := store_finish db asset_id pr.2
      (pr.1, fin.1, fin.2)
  | _, _, _ => ([], db, .error (.exc (.valueError "All parameters are required")))

/-! ## Consumption Orchestrator (src/src/database.py, consume_data) -/

/-- Python truthiness of a VerifiedKeyFrag object: umbral objects define no
custom bool, so they are always truthy.  This is the filter condition of
the comprehension on src/src/database.py lines 126-129. -/
def vkfragTruthy (_ : VerifiedKeyFrag) : Bool := true

/-- From src/src/database.py, lines 120-125: the comprehension parsing each
stored kfrag hex entry.  A failure of bytes.fromhex or of
from_verified_bytes raises out of the whole comprehension; entries after
the first failing one are not processed. -/
def parseKfrags : List (List Nat) → List CryptoOp × Except PyErr (List VerifiedKeyFrag)
  | [] => ([], .ok [])
  | hx :: rest =>
    match hexToBytes hx with
    | none => ([.fromhex], .error (.exc (.valueError "non-hexadecimal data")))
    | some kb =>
      match VerifiedKeyFrag.from_verified_bytes kb with
      | none => ([.fromhex, .parseKfrag], .error (.exc (.valueError "invalid kfrag bytes")))
      | some vk =>
        let r := parseKfrags rest
        ([.fromhex, .parseKfrag] ++ r.1,
         match r.2 with
         | .ok vks => .ok (vk :: vks)
         | .error e => .error e)

/-- From src/src/database.py, consume_data lines 105-147: the try block
body.  Lookup, hex decode of ciphertext and capsule, kfrag parsing,
re-encryption of every parsed (truthy) fragment, the permission gate, and
threshold decryption.  The error messages are those of the source (the
quotes around the asset id are elided). -/
def consumeBody (db : Database) (data_asset_id : String)
    (consumer_secret_key : SecretKey) (delegating_public_key : PublicKey) :
    List CryptoOp × Except PyErr (Bytes × String) :=
  match lookupA db data_asset_id with
  | none =>
    ([], .error (.dataStorageError
      ("No encrypted data found for asset " ++ data_asset_id ++ ".") none))
  | some doc =>
    match doc.access with
    | [] => ([], .error (.exc (.indexError "list index out of range")))
    | access :: _ =>
      match hexToBytes access.data with
      | none => ([.fromhex], .error (.exc (.valueError "non-hexadecimal data")))
      | some ciphertext =>
        match hexToBytes access.capsule with
        | none => ([.fromhex, .fromhex], .error (.exc (.valueError "non-hexadecimal data")))
        | some capsuleBytes =>
          match Capsule.from_bytes capsuleBytes with
          | none =>
            ([.fromhex, .fromhex, .parseCapsule],
             .error (.exc (.valueError "invalid capsule bytes")))
          | some capsule =>
            let kp := parseKfrags access.kfrags
            let ops0 := [.fromhex, .fromhex, .parseCapsule] ++ kp.1
            match kp.2 with
            | .error e => (ops0, .error e)
            | .ok verified_kfrags =>
              let cfrags := (verified_kfrags.filter vkfragTruthy).map
                (reencrypt_data capsule)
              let ops1 := ops0 ++ List.replicate cfrags.length CryptoOp.reencrypt
              if cfrags.isEmpty then
                (ops1, .error (.permissionError
                  "Consumer does not have permission to access the data."))
              else
                match decrypt_reencrypted_data consumer_secret_key
                    delegating_public_key capsule cfrags ciphertext with
                | .error e => (ops1 ++ [.decrypt], .error e)
                | .ok decrypted_data =>
                  (ops1 ++ [.decrypt], .ok (decrypted_data, access.accessUrl))

/-- From src/src/database.py, consume_data lines 149-152: the except clause
catching (ValueError, TypeError) and wrapping them as DecryptionError with
the original exception chained.  Every other outcome passes through. -/
def consumeHandler (r : Except PyErr (Bytes × String)) : Except PyErr (Bytes × String) :=
  match r with
  | .error (.exc (.valueError m)) =>
    .error (.decryptionError ("Decryption error: " ++ m) (.valueError m))
  | .error (.exc (.typeError m)) =>
    .error (.decryptionError ("Decryption error: " ++ m) (.typeError m))
  | r => r

/-- From src/src/database.py, consume_data (lines 76-153).  The
consumer_address and receiving_public_key parameters are reserved and
unused, exactly as in the source. -/
def consume_data (db : Database) (data_asset_id : String)
    (consumer_address : String) (consumer_secret_key : SecretKey)
    (delegating_public_key : PublicKey) (receiving_public_key : PublicKey) :
    List CryptoOp × Except PyErr (Bytes × String) :=
  let r := consumeBody db data_asset_id consumer_secret_key delegating_public_key
  (r.1, consumeHandler r.2)

/-! ## The demo sub-command store invocation (src/main.py) -/

/-- From src/main.py, demo (lines 19-43): the store invocation of the demo
sub-command.  The threshold and shares arguments accepted by the argument
parser (build_parser lines 79-87) are never passed on: store_data is
called without them, so they are unused parameters here, exactly as
args.threshold and args.shares are unused in demo. -/
def demo_store (db : Database) (asset_id : String) (payload : Bytes)
    (access_url : String) (owner_sk : SecretKey) (consumer_sk : SecretKey)
    (threshold shares : Nat) (now : Nat) :
    List CryptoOp × Database × Except PyErr Unit :=
  store_data db asset_id payload access_url (some owner_sk)
    (some (Signer.mk owner_sk.id)) (some consumer_sk.public_key) now

/-! ## Serialization round-trip lemmas -/

/-- Decoding inverts the unary Nat encoding, leaving the rest untouched. -/
theorem decNat_encNat (n : Nat) (r : Bytes) :
    decNat (encNat n ++ r) = some (n, r) := by
  induction n with
  | zero => simp [encNat, decNat]
  | succ k ih => simp [encNat, decNat, ih]

/-- Decoding k values inverts encoding a k-element field list. -/
theorem decNats_flatMap (fs : List Nat) (r : Bytes) :
    decNats fs.length (fs.flatMap encNat ++ r) = some (fs, r) := by
  induction fs generalizing r with
  | nil => simp [decNats]
  | cons a fs ih =>
    simp [decNats, List.flatMap_cons, List.append_assoc, decNat_encNat, ih]

/-- Parsing inverts serialization of a tagged record. -/
theorem parseSer_serialize (tag : Nat) (fields : List Nat) :
    parseSer (serialize tag fields) = some (tag, fields) := by
  have h := decNats_flatMap fields ([] : Bytes)
  simp only [List.append_nil] at h
  simp [parseSer, serialize, List.append_assoc, decNat_encNat, h]

/-- A serialized record is never the empty byte string. -/
theorem serialize_ne_nil (tag : Nat) (fields : List Nat) :
    serialize tag fields ≠ [] := by
  cases tag <;> simp [serialize, encNat]

/-- Every byte of the unary Nat encoding is 0 or 1. -/
theorem encNat_le_one (n : Nat) : ∀ b ∈ encNat n, b ≤ 1 := by
  induction n with
  | zero => simp [encNat]
  | succ k ih =>
    intro b hb
    simp only [encNat, List.mem_cons] at hb
    rcases hb with h | h
    · omega
    · exact ih b h

/-- Every byte of a serialized record is 0 or 1, hence a valid byte. -/
theorem serialize_le_one (tag : Nat) (fields : List Nat) :
    ∀ b ∈ serialize tag fields, b ≤ 1 := by
  intro b hb
  simp only [serialize, List.mem_append, List.mem_flatMap] at hb
  rcases hb with (h | h) | ⟨a, _, h⟩
  · exact encNat_le_one tag b h
  · exact encNat_le_one fields.length b h
  · exact encNat_le_one a b h

/-- hexCharVal inverts hexChar on nibbles. -/
theorem hexCharVal_hexChar : ∀ x, x < 16 → hexCharVal (hexChar x) = some x := by
  decide

/-- Python bytes.fromhex inverts bytes.hex on lists of genuine bytes. -/
theorem hexToBytes_bytesToHex (bs : Bytes) (h : ∀ b ∈ bs, b < 256) :
    hexToBytes (bytesToHex bs) = some bs := by
  induction bs with
  | nil => simp [bytesToHex, hexToBytes]
  | cons b bs ih =>
    have hb : b < 256 := h b (by simp)
    have h1 : b / 16 < 16 := by omega
    have h2 : b % 16 < 16 := Nat.mod_lt _ (by omega)
    have ihh := ih (fun x hx => h x (by simp [hx]))
    have e1 := hexCharVal_hexChar _ h1
    have e2 := hexCharVal_hexChar _ h2
    have hsplit : bytesToHex (b :: bs) =
        hexChar (b / 16) :: hexChar (b % 16) :: bytesToHex bs := by
      simp [bytesToHex]
    rw [hsplit]
    simp [hexToBytes, e1, e2, ihh, Nat.div_add_mod]

/-- Hex round-trip for serialized records. -/
theorem hexToBytes_bytesToHex_serialize (tag : Nat) (fields : List Nat) :
    hexToBytes (bytesToHex (serialize tag fields)) = some (serialize tag fields) :=
  hexToBytes_bytesToHex _ (fun b hb => by
    have := serialize_le_one tag fields b hb; omega)

/-- Capsule byte round-trip. -/
theorem capsule_from_bytes_toBytes (c : Capsule) :
    Capsule.from_bytes c.toBytes = some c := by
  simp [Capsule.from_bytes, Capsule.toBytes, parseSer_serialize]

/-- Verified key fragment byte round-trip. -/
theorem vkfrag_from_bytes_toBytes (k : VerifiedKeyFrag) :
    VerifiedKeyFrag.from_verified_bytes k.toBytes = some k := by
  simp [VerifiedKeyFrag.from_verified_bytes, VerifiedKeyFrag.toBytes, parseSer_serialize]

/-- Ciphertext decoding inverts the modelled encryption. -/
theorem decPayload_encrypt (pkid : Nat) (data : Bytes) :
    decPayload (serialize 3 (pkid :: data)) = some (pkid, data) := by
  simp [decPayload, parseSer_serialize]

/-- Looking up the key just written returns the written document. -/
theorem lookupA_insertA_self (db : Database) (k : String) (v : DidDocument) :
    lookupA (insertA db k v) k = some v := by
  induction db with
  | nil => simp [insertA, lookupA]
  | cons p rest ih =>
    by_cases h : p.1 = k
    · simp [insertA, h, lookupA]
    · simp [insertA, h, lookupA, ih]

/-- A serialized record is never empty, stated on List.isEmpty. -/
theorem serialize_isEmpty_false (tag : Nat) (fields : List Nat) :
    (serialize tag fields).isEmpty = false := by
  cases h : serialize tag fields with
  | nil => exact absurd h (serialize_ne_nil tag fields)
  | cons a l => rfl

/-! ## Spec-side statement of the builder validation order

These two definitions follow the words of the spec (section 4.1:
preconditions validated in this order, first failure wins), to be compared
with the source translation validate_inputs. -/

/-- Modelled from the spec, section 4.1: the six builder precondition
checks in their specified order, each paired with the error reported when
it is the first to fail.  MissingField corresponds to the two missing
message ValueErrors, InvalidKey, InvalidCiphertext and InvalidCapsule to
the respective ValueErrors, and InvalidKeyFragment to the repository
exception InvalidKeyFrag. -/
def builderChecks (data_asset_id access_url owner_public_key ciphertext capsule : PyVal)
    (kfrags : List PyVal) : List (Bool × PyErr) :=
  [ (data_asset_id.truthy, .exc (.valueError "Data asset ID is missing.")),
    (access_url.truthy, .exc (.valueError "Access URL is missing.")),
    (owner_public_key.isPk, .exc (.valueError "Invalid owner public key.")),
    (ciphertext.isBytesVal && ciphertext.truthy, .exc (.valueError "Invalid ciphertext.")),
    (capsule.isCapsuleVal, .exc (.valueError "Invalid capsule.")),
    (!kfrags.isEmpty && kfrags.all PyVal.isVkfrag, .invalidKeyFrag "Invalid key fragments.") ]

/-- Modelled from the spec, section 4.1: the error of the earliest failing
check, if any check fails. -/
def firstFailure : List (Bool × PyErr) → Option PyErr
  | [] => none
  | c :: rest => if c.1 then firstFailure rest else some c.2

/-! ## Normal form of a stored record

The document that store_data inserts for given inputs; a proof-side
abbreviation of the value create_did_document returns on the store
pipeline results. -/

/-- The DID document stored by a successful store_data call with the given
owner and consumer keys, asset id, access URL, payload and clock value. -/
def storedDoc (osk csk : SecretKey) (asset_id access_url : String) (p : Bytes)
    (now : Nat) : DidDocument :=
  { context := DID_CONTEXT_URL
    id := "did:" ++ DID_METHOD ++ ":" ++ asset_id
    created := now
    access := [{ type := "rest"
                 accessUrl := access_url
                 data := bytesToHex (serialize 3 (osk.id :: p))
                 capsule := bytesToHex (Capsule.toBytes ⟨osk.id, p⟩)
                 kfrags := [bytesToHex (VerifiedKeyFrag.toBytes ⟨osk.id, csk.id, 1, 0⟩)] }]
    encryptionType := "PyUmbral"
    encryptionPublicKey := bytesToHex (PublicKey.toBytes ⟨osk.id⟩) }

/-- A valid store_data call logs one encryption and one fragment
generation, inserts exactly the storedDoc record, and succeeds. -/
theorem store_data_ok (db : Database) (p : Bytes)
    (asset_id access_url : String) (osk csk : SecretKey) (osig : Signer) (now : Nat)
    (hp : p ≠ []) (ha : asset_id ≠ "") (hu : access_url ≠ "") :
    store_data db asset_id p access_url (some osk) (some osig)
        (some csk.public_key) now =
      ([.encrypt, .kfragGen],
       insertA db asset_id (storedDoc osk csk asset_id access_url p now),
       .ok ()) := by
  simp [store_data, ha, hp, hu, store_pipeline, store_finish, encrypt_data,
    umbralEncrypt, create_kfrags, generate_kfrags, SecretKey.public_key,
    create_did_document, validate_inputs, PyVal.truthy, PyVal.isPk,
    PyVal.isBytesVal, PyVal.isCapsuleVal, PyVal.isVkfrag,
    serialize_isEmpty_false, storedDoc, Capsule.toBytes,
    VerifiedKeyFrag.toBytes, PublicKey.toBytes, List.range_succ]

/-- Hex round-trip for serialized capsule bytes. -/
theorem hex_round_capsule (c : Capsule) :
    hexToBytes (bytesToHex c.toBytes) = some c.toBytes :=
  hexToBytes_bytesToHex_serialize 1 _

/-- Hex round-trip for serialized fragment bytes. -/
theorem hex_round_vkfrag (k : VerifiedKeyFrag) :
    hexToBytes (bytesToHex k.toBytes) = some k.toBytes :=
  hexToBytes_bytesToHex_serialize 2 _

/-- Consuming an asset whose stored record is a storedDoc reduces to the
threshold decryption step on the parsed ciphertext, capsule and single
fragment, for arbitrary consumer-side keys. -/
theorem consume_storedDoc (db : Database) (p : Bytes)
    (asset_id access_url consumer_address : String) (osk csk : SecretKey)
    (csk2 : SecretKey) (dpk rpk : PublicKey) (now : Nat)
    (hdb : lookupA db asset_id = some (storedDoc osk csk asset_id access_url p now)) :
    (consume_data db asset_id consumer_address csk2 dpk rpk).2 =
      consumeHandler
        (match decrypt_reencrypted csk2 dpk ⟨osk.id, p⟩
            [⟨⟨osk.id, p⟩, ⟨osk.id, csk.id, 1, 0⟩⟩] (serialize 3 (osk.id :: p)) with
         | .error e => .error e
         | .ok d => .ok (d, access_url)) := by
  simp [consume_data, consumeBody, hdb, storedDoc, hexToBytes_bytesToHex_serialize,
    hex_round_capsule, hex_round_vkfrag, capsule_from_bytes_toBytes,
    vkfrag_from_bytes_toBytes, parseKfrags, vkfragTruthy, reencrypt_data,
    umbralReencrypt, decrypt_reencrypted_data]
  cases h : decrypt_reencrypted csk2 dpk ⟨osk.id, p⟩
      [⟨⟨osk.id, p⟩, ⟨osk.id, csk.id, 1, 0⟩⟩] (serialize 3 (osk.id :: p)) <;>
    simp [h]

/-- With the matching consumer secret key and owner public key, threshold
decryption of a stored record succeeds and returns the original payload. -/
theorem decrypt_storedDoc_ok (osk csk : SecretKey) (p : Bytes) :
    decrypt_reencrypted csk osk.public_key ⟨osk.id, p⟩
      [⟨⟨osk.id, p⟩, ⟨osk.id, csk.id, 1, 0⟩⟩] (serialize 3 (osk.id :: p)) = .ok p := by
  simp [decrypt_reencrypted, decPayload_encrypt, SecretKey.public_key]

/-! ## The claims -/

/-- Claim C1: the spec says the store operation generates exactly shares
delegation fragments under the caller-supplied threshold policy, with
externally configurable defaults (PRE_THRESHOLD = 2, PRE_SHARES = 3), so
that a store under threshold 2, shares 3 yields a record with 3 fragments.
The code does not: demo accepts the threshold and shares arguments but
never forwards them, and store_data hardcodes threshold 1, shares 1, so
the stored record carries exactly 1 fragment, not PRE_SHARES = 3. -/
theorem C1_store_ignores_threshold_and_shares :
    (Option.map (fun d => d.access.map (fun a => a.kfrags.length))
      (lookupA (demo_store [] "asset-001" [1] "u" ⟨0⟩ ⟨1⟩
        PRE_THRESHOLD PRE_SHARES 0).2.1 "asset-001") = some [1]) ∧
    PRE_THRESHOLD = 2 ∧ PRE_SHARES = 3 ∧ (1 : Nat) ≠ PRE_SHARES := by
  refine ⟨?_, rfl, rfl, by decide⟩
  decide

/-- Claim C2: for every nonempty plaintext p, storing it with access URL u
under the (threshold 1, shares 1) policy and then consuming the same asset
with the delegated consumer secret key and the owner public key succeeds
and returns exactly the pair (p, u). -/
theorem C2_store_consume_round_trip (db : Database) (p : Bytes)
    (asset_id access_url consumer_address : String) (osk csk : SecretKey)
    (osig : Signer) (rpk : PublicKey) (now : Nat)
    (hp : p ≠ []) (ha : asset_id ≠ "") (hu : access_url ≠ "") :
    (store_data db asset_id p access_url (some osk) (some osig)
        (some csk.public_key) now).2.2 = .ok () ∧
    (consume_data
        (store_data db asset_id p access_url (some osk) (some osig)
          (some csk.public_key) now).2.1
        asset_id consumer_address csk osk.public_key rpk).2 =
      .ok (p, access_url) := by
  have hst := store_data_ok db p asset_id access_url osk csk osig now hp ha hu
  constructor
  · rw [hst]
  · rw [hst]
    have hdb : lookupA (insertA db asset_id (storedDoc osk csk asset_id access_url p now))
        asset_id = some (storedDoc osk csk asset_id access_url p now) :=
      lookupA_insertA_self db asset_id _
    rw [consume_storedDoc (insertA db asset_id (storedDoc osk csk asset_id access_url p now))
      p asset_id access_url consumer_address osk csk csk osk.public_key rpk now hdb]
    simp [decrypt_storedDoc_ok, consumeHandler]

/-- Claim C2 witness: the round trip at concrete inputs. -/
theorem C2_witness :
    (store_data [] "asset-001" [1, 2] "u" (some ⟨0⟩) (some ⟨0⟩)
        (some (SecretKey.public_key ⟨1⟩)) 0).2.2 = .ok () ∧
    (consume_data
        (store_data [] "asset-001" [1, 2] "u" (some ⟨0⟩) (some ⟨0⟩)
          (some (SecretKey.public_key ⟨1⟩)) 0).2.1
        "asset-001" "addr" ⟨1⟩ (SecretKey.public_key ⟨0⟩) ⟨1⟩).2 =
      .ok ([1, 2], "u") :=
  C2_store_consume_round_trip [] [1, 2] "asset-001" "u" "addr" ⟨0⟩ ⟨1⟩ ⟨0⟩ ⟨1⟩ 0
    (by decide) (by decide) (by decide)

/-- Claim C3 counterexample: not every failure kind of the store pipeline
steps 2-4 is wrapped into DataStorageError.  The record builder (step 4)
can fail with the InvalidKeyFrag exception (here: on an empty fragment
list), and the store exception handling (store_finish, the translation of
the except ValueError clause of store_data) passes that kind through
unwrapped instead of raising DataStorageError. -/
theorem C3_counterexample :
    create_did_document 0 "asset-001" "u" ⟨7⟩ [0] ⟨7, [5]⟩ [] =
      .error (.invalidKeyFrag "Invalid key fragments.") ∧
    store_finish [] "asset-001" (.error (.invalidKeyFrag "Invalid key fragments.")) =
      ([], .error (.invalidKeyFrag "Invalid key fragments.")) := by
  exact ⟨rfl, rfl⟩

/-- Claim C3 (amended): a ValueError-kind failure of the store pipeline
steps 2-4 is wrapped by store_data into DataStorageError carrying the
underlying cause, and on every pipeline failure the asset store is left
exactly as it was (store_finish returns the database unchanged); the
builder InvalidKeyFrag kind, however, is not wrapped. -/
theorem C3_valueerror_wrapped_store_unchanged (db : Database) (asset_id m : String)
    (e : PyErr) :
    store_finish db asset_id (.error (.exc (.valueError m))) =
      (db, .error (.dataStorageError ("Failed to store data: " ++ m)
        (some (.valueError m)))) ∧
    (store_finish db asset_id (.error e)).1 = db := by
  refine ⟨rfl, ?_⟩
  cases e with
  | exc pe => cases pe <;> rfl
  | invalidKeyFrag m => rfl
  | dataStorageError m c => rfl
  | decryptionError m c => rfl
  | permissionError m => rfl

/-- Claim C4: the builder validates its inputs in the fixed order asset id,
access URL, owner public key, ciphertext, capsule, kfrags, and the first
check that fails determines the single error raised, so with several
invalid fields the reported error is the earliest in the order.  The
sequential validation chain of the source equals the spec-side
first-failing-check function on the ordered check list. -/
theorem C4_validation_first_failure_wins
    (data_asset_id access_url owner_public_key ciphertext capsule : PyVal)
    (kfrags : List PyVal) :
    validate_inputs data_asset_id access_url owner_public_key ciphertext capsule kfrags =
      (match firstFailure (builderChecks data_asset_id access_url owner_public_key
          ciphertext capsule kfrags) with
       | none => Except.ok ()
       | some e => Except.error e) := by
  cases h1 : data_asset_id.truthy <;> cases h2 : access_url.truthy <;>
    cases h3 : owner_public_key.isPk <;> cases h4 : ciphertext.isBytesVal <;>
    cases h5 : ciphertext.truthy <;> cases h6 : capsule.isCapsuleVal <;>
    cases h7 : kfrags.isEmpty <;> cases h8 : kfrags.all PyVal.isVkfrag <;>
    simp [validate_inputs, builderChecks, firstFailure, h1, h2, h3, h4, h5, h6, h7, h8]

/-- Claim C5: whenever the re-encrypt step of consume produces zero capsule
fragments (which, past the parse step, happens exactly when the stored
kfrags list is empty), consume fails with PermissionError; no decrypt
operation is performed and no plaintext is returned. -/
theorem C5_zero_cfrags_permission_error (db : Database)
    (data_asset_id consumer_address : String) (csk : SecretKey) (dpk rpk : PublicKey)
    (doc : DidDocument) (entry : AccessEntry) (rest : List AccessEntry)
    (ct cb : Bytes) (cap : Capsule)
    (hdb : lookupA db data_asset_id = some doc)
    (hacc : doc.access = entry :: rest)
    (hct : hexToBytes entry.data = some ct)
    (hcb : hexToBytes entry.capsule = some cb)
    (hcap : Capsule.from_bytes cb = some cap)
    (hkf : entry.kfrags = []) :
    consume_data db data_asset_id consumer_address csk dpk rpk =
      ([.fromhex, .fromhex, .parseCapsule],
       .error (.permissionError
         "Consumer does not have permission to access the data.")) ∧
    CryptoOp.decrypt ∉ (consume_data db data_asset_id consumer_address csk dpk rpk).1 := by
  have hmain : consume_data db data_asset_id consumer_address csk dpk rpk =
      ([.fromhex, .fromhex, .parseCapsule],
       .error (.permissionError
         "Consumer does not have permission to access the data.")) := by
    simp [consume_data, consumeBody, hdb, hacc, hct, hcb, hcap, hkf, parseKfrags,
      vkfragTruthy, consumeHandler]
  refine ⟨hmain, ?_⟩
  rw [hmain]
  decide

/-- A stored record with no key fragments at all (constructible only by
hand, never by store_data): used to witness the permission gate. -/
def emptyKfragsDb : Database :=
  [("a", { context := DID_CONTEXT_URL
           id := "did:op:a"
           created := 0
           access := [{ type := "rest"
                        accessUrl := "u"
                        data := bytesToHex (serialize 3 [0, 5])
                        capsule := bytesToHex (Capsule.toBytes ⟨0, [5]⟩)
                        kfrags := [] }]
           encryptionType := "PyUmbral"
           encryptionPublicKey := [] })]

/-- Claim C5 witness: the permission gate at a concrete record with an
empty kfrags list. -/
theorem C5_witness :
    consume_data emptyKfragsDb "a" "addr" ⟨1⟩ ⟨0⟩ ⟨1⟩ =
      ([.fromhex, .fromhex, .parseCapsule],
       .error (.permissionError
         "Consumer does not have permission to access the data.")) ∧
    CryptoOp.decrypt ∉ (consume_data emptyKfragsDb "a" "addr" ⟨1⟩ ⟨0⟩ ⟨1⟩).1 :=
  C5_zero_cfrags_permission_error emptyKfragsDb "a" "addr" ⟨1⟩ ⟨0⟩ ⟨1⟩
    _ _ [] (serialize 3 [0, 5]) (Capsule.toBytes ⟨0, [5]⟩) ⟨0, [5]⟩
    rfl rfl (by decide) (by decide) (by decide) rfl

/-- A stored record whose kfrags list mixes one parseable and one
unparseable (non-hex) entry. -/
def mixedKfragsDb : Database :=
  [("a", { context := DID_CONTEXT_URL
           id := "did:op:a"
           created := 0
           access := [{ type := "rest"
                        accessUrl := "u"
                        data := bytesToHex (serialize 3 [0, 5])
                        capsule := bytesToHex (Capsule.toBytes ⟨0, [5]⟩)
                        kfrags := [bytesToHex (VerifiedKeyFrag.toBytes ⟨0, 1, 1, 0⟩),
                                   [122, 122]] }]
           encryptionType := "PyUmbral"
           encryptionPublicKey := [] })]

/-- Claim C6 counterexample: on a record mixing parseable and unparseable
kfrag entries, consume does not proceed with the parseable fragments (the
delegated consumer would otherwise receive the payload): the unparseable
entry makes the parse comprehension raise, and the call aborts with
DecryptionError. -/
theorem C6_counterexample :
    (consume_data mixedKfragsDb "a" "addr" ⟨1⟩ ⟨0⟩ ⟨1⟩).2 =
      .error (.decryptionError "Decryption error: non-hexadecimal data"
        (.valueError "non-hexadecimal data")) ∧
    ∀ u : String, (consume_data mixedKfragsDb "a" "addr" ⟨1⟩ ⟨0⟩ ⟨1⟩).2 ≠ .ok ([5], u) := by
  refine ⟨by decide, ?_⟩
  intro u h
  rw [show (consume_data mixedKfragsDb "a" "addr" ⟨1⟩ ⟨0⟩ ⟨1⟩).2 =
      .error (.decryptionError "Decryption error: non-hexadecimal data"
        (.valueError "non-hexadecimal data")) from by decide] at h
  exact Except.noConfusion h

/-- Claim C6 (amended): a stored kfrag entry that fails to parse is never
silently skipped; the parse failure aborts the whole consume call with
DecryptionError wrapping the parse ValueError.  The comprehension filter
(if vkfrag) only skips falsy values, and parsed fragment objects are
always truthy, so it skips nothing. -/
theorem C6_unparseable_kfrag_aborts (db : Database)
    (data_asset_id consumer_address : String) (csk : SecretKey) (dpk rpk : PublicKey)
    (doc : DidDocument) (entry : AccessEntry) (rest : List AccessEntry)
    (ct cb : Bytes) (cap : Capsule) (m : String)
    (hdb : lookupA db data_asset_id = some doc)
    (hacc : doc.access = entry :: rest)
    (hct : hexToBytes entry.data = some ct)
    (hcb : hexToBytes entry.capsule = some cb)
    (hcap : Capsule.from_bytes cb = some cap)
    (hkf : (parseKfrags entry.kfrags).2 = .error (.exc (.valueError m))) :
    (consume_data db data_asset_id consumer_address csk dpk rpk).2 =
      .error (.decryptionError ("Decryption error: " ++ m) (.valueError m)) := by
  simp [consume_data, consumeBody, hdb, hacc, hct, hcb, hcap, hkf, consumeHandler]

/-- Claim C6 (amended) witness: the abort at the concrete mixed record. -/
theorem C6_amended_witness :
    (consume_data mixedKfragsDb "a" "addr" ⟨1⟩ ⟨0⟩ ⟨1⟩).2 =
      .error (.decryptionError ("Decryption error: " ++ "non-hexadecimal data")
        (.valueError "non-hexadecimal data")) :=
  C6_unparseable_kfrag_aborts mixedKfragsDb "a" "addr" ⟨1⟩ ⟨0⟩ ⟨1⟩
    _ _ [] (serialize 3 [0, 5]) (Capsule.toBytes ⟨0, [5]⟩) ⟨0, [5]⟩
    "non-hexadecimal data" rfl rfl (by decide) (by decide) (by decide) (by decide)

/-- Claim C7: consuming an asset id absent from the store fails with the
not-found DataStorageError (a kind distinct from PermissionError and
DecryptionError), the logged operation list is empty (no hex decoding,
re-encryption or decryption is performed), and consume never writes to the
store (it is read-only by construction). -/
theorem C7_missing_asset_not_found (db : Database)
    (data_asset_id consumer_address : String) (csk : SecretKey) (dpk rpk : PublicKey)
    (h : lookupA db data_asset_id = none) :
    consume_data db data_asset_id consumer_address csk dpk rpk =
      ([], .error (.dataStorageError
        ("No encrypted data found for asset " ++ data_asset_id ++ ".") none)) := by
  simp [consume_data, consumeBody, h, consumeHandler]

/-- Claim C7 witness: the not-found failure on an empty store. -/
theorem C7_witness :
    consume_data [] "missing" "addr" ⟨0⟩ ⟨0⟩ ⟨0⟩ =
      ([], .error (.dataStorageError
        ("No encrypted data found for asset " ++ "missing" ++ ".") none)) :=
  C7_missing_asset_not_found [] "missing" "addr" ⟨0⟩ ⟨0⟩ ⟨0⟩ rfl

/-- Claim C8: storing twice under the same asset id overwrites with
last-write-wins semantics: the store maps the id to the same record a
single store of the second payload would have produced, and consume
returns the second payload, never the first. -/
theorem C8_restore_overwrites (db : Database) (p1 p2 : Bytes)
    (asset_id access_url consumer_address : String) (osk csk : SecretKey)
    (osig : Signer) (rpk : PublicKey) (now1 now2 : Nat)
    (hp1 : p1 ≠ []) (hp2 : p2 ≠ []) (hne : p1 ≠ p2)
    (ha : asset_id ≠ "") (hu : access_url ≠ "") :
    lookupA (store_data
        (store_data db asset_id p1 access_url (some osk) (some osig)
          (some csk.public_key) now1).2.1
        asset_id p2 access_url (some osk) (some osig)
        (some csk.public_key) now2).2.1 asset_id =
      lookupA (store_data db asset_id p2 access_url (some osk) (some osig)
        (some csk.public_key) now2).2.1 asset_id ∧
    (consume_data (store_data
        (store_data db asset_id p1 access_url (some osk) (some osig)
          (some csk.public_key) now1).2.1
        asset_id p2 access_url (some osk) (some osig)
        (some csk.public_key) now2).2.1
      asset_id consumer_address csk osk.public_key rpk).2 = .ok (p2, access_url) ∧
    (consume_data (store_data
        (store_data db asset_id p1 access_url (some osk) (some osig)
          (some csk.public_key) now1).2.1
        asset_id p2 access_url (some osk) (some osig)
        (some csk.public_key) now2).2.1
      asset_id consumer_address csk osk.public_key rpk).2 ≠ .ok (p1, access_url) := by
  have h1 := store_data_ok db p1 asset_id access_url osk csk osig now1 hp1 ha hu
  rw [h1]
  have h2 := store_data_ok (insertA db asset_id (storedDoc osk csk asset_id access_url p1 now1))
    p2 asset_id access_url osk csk osig now2 hp2 ha hu
  rw [h2]
  have h2b := store_data_ok db p2 asset_id access_url osk csk osig now2 hp2 ha hu
  rw [h2b]
  have hdb := lookupA_insertA_self
    (insertA db asset_id (storedDoc osk csk asset_id access_url p1 now1))
    asset_id (storedDoc osk csk asset_id access_url p2 now2)
  have hcons := consume_storedDoc
    (insertA (insertA db asset_id (storedDoc osk csk asset_id access_url p1 now1))
      asset_id (storedDoc osk csk asset_id access_url p2 now2))
    p2 asset_id access_url consumer_address osk csk csk osk.public_key rpk now2 hdb
  refine ⟨?_, ?_, ?_⟩
  · rw [hdb, lookupA_insertA_self]
  · rw [hcons]
    simp [decrypt_storedDoc_ok, consumeHandler]
  · rw [hcons]
    simp [decrypt_storedDoc_ok, consumeHandler]
    exact fun hh => hne hh.symm

/-- Claim C8 witness: the overwrite at concrete payloads. -/
theorem C8_witness :
    lookupA (store_data
        (store_data [] "a" [1] "u" (some ⟨0⟩) (some ⟨0⟩)
          (some (SecretKey.public_key ⟨1⟩)) 0).2.1
        "a" [2] "u" (some ⟨0⟩) (some ⟨0⟩)
        (some (SecretKey.public_key ⟨1⟩)) 1).2.1 "a" =
      lookupA (store_data [] "a" [2] "u" (some ⟨0⟩) (some ⟨0⟩)
        (some (SecretKey.public_key ⟨1⟩)) 1).2.1 "a" ∧
    (consume_data (store_data
        (store_data [] "a" [1] "u" (some ⟨0⟩) (some ⟨0⟩)
          (some (SecretKey.public_key ⟨1⟩)) 0).2.1
        "a" [2] "u" (some ⟨0⟩) (some ⟨0⟩)
        (some (SecretKey.public_key ⟨1⟩)) 1).2.1
      "a" "addr" ⟨1⟩ (SecretKey.public_key ⟨0⟩) ⟨1⟩).2 = .ok ([2], "u") ∧
    (consume_data (store_data
        (store_data [] "a" [1] "u" (some ⟨0⟩) (some ⟨0⟩)
          (some (SecretKey.public_key ⟨1⟩)) 0).2.1
        "a" [2] "u" (some ⟨0⟩) (some ⟨0⟩)
        (some (SecretKey.public_key ⟨1⟩)) 1).2.1
      "a" "addr" ⟨1⟩ (SecretKey.public_key ⟨0⟩) ⟨1⟩).2 ≠ .ok ([1], "u") :=
  C8_restore_overwrites [] [1] [2] "a" "u" "addr" ⟨0⟩ ⟨1⟩ ⟨0⟩ ⟨1⟩ 0 1
    (by decide) (by decide) (by decide) (by decide) (by decide)

/-- Claim C9: a store call with any required argument empty or nil (empty
asset id, empty plaintext, empty access URL, or a missing key, signer or
consumer key object) is rejected with the argument ValueError before any
cryptographic operation is logged and with the store unchanged. -/
theorem C9_empty_argument_rejected (db : Database) (asset_id : String)
    (data : Bytes) (access_url : String) (okey : Option SecretKey)
    (osig : Option Signer) (ckey : Option PublicKey) (now : Nat)
    (h : asset_id = "" ∨ data = [] ∨ access_url = "" ∨
      okey = none ∨ osig = none ∨ ckey = none) :
    store_data db asset_id data access_url okey osig ckey now =
      ([], db, .error (.exc (.valueError "All parameters are required"))) := by
  cases okey <;> cases osig <;> cases ckey <;> simp_all [store_data]

/-- Claim C9 witness: rejection of an empty asset id. -/
theorem C9_witness :
    store_data [] "" [1] "u" (some ⟨0⟩) (some ⟨0⟩) (some ⟨1⟩) 0 =
      ([], [], .error (.exc (.valueError "All parameters are required"))) :=
  C9_empty_argument_rejected [] "" [1] "u" (some ⟨0⟩) (some ⟨0⟩) (some ⟨1⟩) 0
    (Or.inl rfl)

/-- A failing threshold decryption always raises the decryption ValueError. -/
theorem decrypt_reencrypted_error_shape (rsk : SecretKey) (dpk : PublicKey)
    (cap : Capsule) (cfr : List VerifiedCapsuleFrag) (ct : Bytes) (e : PyErr)
    (h : decrypt_reencrypted rsk dpk cap cfr ct = .error e) :
    e = .exc (.valueError "decryption failed") := by
  unfold decrypt_reencrypted at h
  split at h
  · exact (Except.error.inj h).symm
  · split at h
    · exact absurd h (by simp)
    · exact (Except.error.inj h).symm

/-- Claim C10: for a record produced by a successful store call and left
unmodified, a subsequent consume of that asset id never takes the
PermissionError branch, whatever keys the consumer supplies: the builder
rejects empty fragment lists before storage, the stored fragment parses
back, and its re-encryption yields one capsule fragment, so the
zero-cfrags condition is impossible. -/
theorem C10_stored_record_never_permission_error (db : Database) (p : Bytes)
    (asset_id access_url consumer_address : String) (osk csk : SecretKey)
    (osig : Signer) (csk2 : SecretKey) (dpk2 rpk2 : PublicKey) (now : Nat)
    (m : String) (hp : p ≠ []) (ha : asset_id ≠ "") (hu : access_url ≠ "") :
    (consume_data (store_data db asset_id p access_url (some osk) (some osig)
        (some csk.public_key) now).2.1
      asset_id consumer_address csk2 dpk2 rpk2).2 ≠
      .error (.permissionError m) := by
  have hst := store_data_ok db p asset_id access_url osk csk osig now hp ha hu
  rw [hst]
  have hdb := lookupA_insertA_self db asset_id (storedDoc osk csk asset_id access_url p now)
  rw [consume_storedDoc (insertA db asset_id (storedDoc osk csk asset_id access_url p now))
    p asset_id access_url consumer_address osk csk csk2 dpk2 rpk2 now hdb]
  cases hres : decrypt_reencrypted csk2 dpk2 ⟨osk.id, p⟩
      [⟨⟨osk.id, p⟩, ⟨osk.id, csk.id, 1, 0⟩⟩] (serialize 3 (osk.id :: p)) with
  | error e =>
    rw [decrypt_reencrypted_error_shape _ _ _ _ _ _ hres]
    simp [consumeHandler]
  | ok d =>
    simp [consumeHandler]

/-- Claim C10 witness: no PermissionError even for a consumer presenting
the wrong secret key against the wrong delegating key. -/
theorem C10_witness :
    (consume_data (store_data [] "a" [3] "u" (some ⟨0⟩) (some ⟨0⟩)
        (some (SecretKey.public_key ⟨1⟩)) 0).2.1
      "a" "addr" ⟨9⟩ ⟨8⟩ ⟨7⟩).2 ≠
      .error (.permissionError "Consumer does not have permission to access the data.") :=
  C10_stored_record_never_permission_error [] [3] "a" "u" "addr" ⟨0⟩ ⟨1⟩ ⟨0⟩ ⟨9⟩ ⟨8⟩ ⟨7⟩ 0
    "Consumer does not have permission to access the data."
    (by decide) (by decide) (by decide)

end MiniDataProxy
